import Mathlib

/-!
Shallow embedding of the Elacity elastos-launcher PC2 supervisor
(src/unnamed/part_001, with the IPC handler from src/src/main/index.ts and
the renderer environment-switch flow from src/src/renderer/app.js).

Conventions: paths are modelled as plain strings joined with "/" (the posix
branch of the source); machine effects (spawn, kill, rmSync, exec on the
service port) are recorded in explicit state fields; asynchronous callbacks
(exit handler, the 3-second stop grace timer, waitForServer) are sequenced
as the source resolves them, with oracles supplying the outcomes of the
external world (filesystem existence, HTTP probe results, child exits).
-/

namespace Launcher

/-- PC2Status from part_001 line 319. -/
inductive PC2Status where
  | running
  | stopped
  | starting
  | stopping
  | error
  | notInstalled
deriving Repr, DecidableEq

/-- PC2Environment from part_001 line 320. -/
inductive PC2Environment where
  | default
  | dev
  | custom
deriving Repr, DecidableEq

/-- MAX_LOG_LINES (part_001 line 31). -/
def MAX_LOG_LINES : Nat := 500

/-- The buffer discipline of emitLog (part_001 lines 390-394): push the
line at the tail, then shift one line off the head when the length
exceeds MAX_LOG_LINES. -/
def emitLogBuf (buf : List String) (line : String) : List String :=
  let b := buf ++ [line]
  if b.length > MAX_LOG_LINES then b.drop 1 else b

/-- The timestamped line format built by emitLog (part_001 lines 386-387). -/
def formatLogLine (timestamp message : String) : String :=
  "[" ++ timestamp ++ "] " ++ message

/-- JavaScript Array.prototype.slice with a single start argument, as used
by getLogs (part_001 line 569): a negative start counts from the end and
clamps at 0, a non-negative start clamps at the length. -/
def jsSlice (l : List String) (start : Int) : List String :=
  let len : Int := l.length
  let b : Int := if start < 0 then max (len + start) 0 else min start len
  l.drop b.toNat

/-- getLogs (part_001 lines 567-571): take logBuffer.slice(-lines) and
join with newlines. -/
def getLogs (buf : List String) (lines : Int) : String :=
  String.intercalate "\n" (jsSlice buf (-lines))

/-- A ChildProcess handle as the supervisor sees it: its OS pid and the
killed flag that Node sets once kill() has successfully sent a signal. -/
structure ProcHandle where
  pid : Nat
  killed : Bool
deriving Repr, DecidableEq

/-- The module-level mutable state of part_001 (pc2Process line 29,
logBuffer line 30, the last status pushed to listeners by emitStatus line
381) together with ledgers recording the machine effects the supervisor
performs: pids handed out by spawn, pids that were sent a kill signal,
kill-by-port fallbacks, and directories removed by rmSync. -/
structure SupState where
  pc2Process : Option ProcHandle
  lastStatus : Option PC2Status
  logBuffer : List String
  nextPid : Nat
  spawnCount : Nat
  killedPids : List Nat
  portKills : Nat
  deletedDirs : List String
deriving Repr, DecidableEq

/-- emitStatus (part_001 lines 381-383): push the status to listeners;
we record the last value pushed. -/
def emitStatusS (st : PC2Status) (s : SupState) : SupState :=
  { s with lastStatus := some st }

/-- emitLog (part_001 lines 385-397) at the state level: append the line
to the bounded buffer (timestamp prefix elided; see formatLogLine). -/
def emitLogS (line : String) (s : SupState) : SupState :=
  { s with logBuffer := emitLogBuf s.logBuffer line }

/-- Is the tracked handle present and not killed (the guard
pc2Process and not pc2Process.killed used throughout part_001)? -/
def aliveOpt : Option ProcHandle → Bool
  | some p => !p.killed
  | none => false

def aliveTracked (s : SupState) : Bool :=
  aliveOpt s.pc2Process

/-- How many child handles the supervisor tracks (pc2Process is a single
nullable variable, part_001 line 29). -/
def trackedCount (s : SupState) : Nat :=
  match s.pc2Process with
  | some _ => 1
  | none => 0

/-- The exit listener registered by startPC2 (part_001 lines 489-497):
log the exit, clear the tracked handle, emit stopped. -/
def exitHandler (code : Option Int) (signal : Option String) (s : SupState) : SupState :=
  let s :=
    match code with
    | some c => emitLogS ("PC2 exited with code " ++ toString c) s
    | none =>
      match signal with
      | some sig => emitLogS ("PC2 was killed with signal " ++ sig) s
      | none => s
  emitStatusS PC2Status.stopped { s with pc2Process := none }

/-- Outcome of one fetch of the health endpoint: an HTTP response with a
status code, or a thrown network error (which includes the AbortController
timeout). -/
inductive FetchOutcome where
  | response (status : Nat)
  | netError
deriving Repr, DecidableEq

/-- Response.ok in the Fetch standard: status in the 2xx range. -/
def respOk (status : Nat) : Bool :=
  decide (200 ≤ status) && decide (status < 300)

/-- The try block of getStatus (part_001 lines 413-427): an ok response
means healthy; a non-2xx response falls through; a thrown error is
swallowed by the catch. -/
def probeHealthy : FetchOutcome → Bool
  | FetchOutcome.response st => respOk st
  | FetchOutcome.netError => false

/-- isInstalled (part_001 lines 399-403): the service root must exist and
contain the build marker dist/index.js. -/
def isInstalledB (fsExists : String → Bool) (nodeDir : String) : Bool :=
  fsExists nodeDir && fsExists (nodeDir ++ "/dist/index.js")

/-- getStatus (part_001 lines 405-435). The probe oracle fetchAt is a
function of the abort timeout used for the request; getStatus makes a
single request with a 2000 ms timeout. -/
def getStatusM (fsExists : String → Bool) (nodeDir : String)
    (fetchAt : Nat → FetchOutcome) (proc : Option ProcHandle) : PC2Status :=
  if !(isInstalledB fsExists nodeDir) then PC2Status.notInstalled
  else if probeHealthy (fetchAt 2000) then PC2Status.running
  else if aliveOpt proc then PC2Status.starting
  else PC2Status.stopped

/-- The polling loop of waitForServer (part_001 lines 746-770). probe
gives the outcome of the attempt with index i, dur its duration in ms
(bounded by the 2000 ms abort timeout in the source); each iteration also
sleeps 1000 ms. The loop runs while the elapsed time is below the
timeout and otherwise throws the readiness-timeout error. -/
def waitLoop (probe : Nat → FetchOutcome) (dur : Nat → Nat) (timeout : Nat)
    (elapsed : Nat) (i : Nat) : Except String Unit :=
  if elapsed < timeout then
    if probeHealthy (probe i) then Except.ok ()
    else waitLoop probe dur timeout (elapsed + dur i + 1000) (i + 1)
  else Except.error "Timeout waiting for server to start"
termination_by timeout - elapsed
decreasing_by omega

/-- waitForServer with its default 30000 ms timeout (part_001 line 746). -/
def waitForServer (probe : Nat → FetchOutcome) (dur : Nat → Nat) : Except String Unit :=
  waitLoop probe dur 30000 0 0

/-- What the spawned child does: fire the error event, or come up so that
the promise returned by waitForServer decides the rest. -/
inductive SpawnOutcome where
  | errorEvent (msg : String)
  | spawned
deriving Repr, DecidableEq

/-- How a startPC2 call returns to its caller. -/
inductive StartResult where
  | earlyNotInstalled
  | earlyAlreadyRunning
  | resolved
  | rejected (msg : String)
deriving Repr, DecidableEq

/-- startPC2 (part_001 lines 437-516). Oracles: installed is the awaited
isInstalled value; sp tells whether the spawn fired its error event;
waitResult is the settlement of waitForServer; exitedDuringWait is some c
when the child exited on its own (with code c) before the readiness wait
failed, in which case the exit listener has already run. -/
def startPC2 (installed : Bool) (sp : SpawnOutcome) (waitResult : Except String Unit)
    (exitedDuringWait : Option Int) (nodeDir nodePath : String)
    (s : SupState) : SupState × StartResult :=
  if !installed then
    (emitLogS "PC2 is not installed. Please install first."
      (emitStatusS PC2Status.notInstalled s), StartResult.earlyNotInstalled)
  else if aliveTracked s then
    (emitLogS "PC2 is already running" s, StartResult.earlyAlreadyRunning)
  else
    let s := emitLogS ("Starting PC2 from " ++ nodeDir ++ "...")
      (emitStatusS PC2Status.starting s)
    let s := emitLogS ("Using node: " ++ nodePath) s
    let s := emitLogS ("Starting: " ++ nodeDir ++ "/dist/index.js") s
    let pid := s.nextPid
    let s := { s with pc2Process := some { pid := pid, killed := false },
                      nextPid := s.nextPid + 1,
                      spawnCount := s.spawnCount + 1 }
    let s := emitLogS "Process spawned, waiting for server to be ready..." s
    match sp with
    | SpawnOutcome.errorEvent msg =>
      let s := emitLogS ("Failed to start PC2: " ++ msg)
        (emitStatusS PC2Status.error s)
      ({ s with pc2Process := none }, StartResult.rejected msg)
    | SpawnOutcome.spawned =>
      match waitResult with
      | Except.ok _ =>
        (emitLogS "PC2 is now running!" (emitStatusS PC2Status.running s),
          StartResult.resolved)
      | Except.error msg =>
        let s :=
          match exitedDuringWait with
          | some c => exitHandler (some c) none s
          | none => s
        let s := emitLogS ("Failed to start: " ++ msg)
          (emitStatusS PC2Status.error s)
        let s :=
          match s.pc2Process with
          | some p =>
            if !p.killed then
              { s with killedPids := s.killedPids ++ [p.pid], pc2Process := none }
            else s
          | none => s
        (s, StartResult.rejected msg)

/-- stopPC2 (part_001 lines 518-556). exitedDuringGrace tells whether the
SIGTERM made the child exit (running the exit listener) before the
3-second grace timer fired. The promise only ever resolves; the Except in
the result records that no rejection path exists. -/
def stopPC2 (exitedDuringGrace : Bool) (s : SupState) : SupState × Except String Unit :=
  let s := emitLogS "Stopping PC2..." (emitStatusS PC2Status.stopping s)
  match s.pc2Process with
  | some p =>
    if !p.killed then
      let s := { s with pc2Process := some { p with killed := true },
                        killedPids := s.killedPids ++ [p.pid] }
      let s := if exitedDuringGrace then exitHandler none (some "SIGTERM") s else s
      let s :=
        match s.pc2Process with
        | some q =>
          if !q.killed then
            emitLogS "Force killing PC2..."
              { s with killedPids := s.killedPids ++ [q.pid] }
          else s
        | none => s
      let s := { s with pc2Process := none }
      (emitLogS "PC2 stopped" (emitStatusS PC2Status.stopped s), Except.ok ())
    else
      let s := { s with portKills := s.portKills + 1 }
      (emitLogS "PC2 stopped" (emitStatusS PC2Status.stopped s), Except.ok ())
  | none =>
    let s := { s with portKills := s.portKills + 1 }
    (emitLogS "PC2 stopped" (emitStatusS PC2Status.stopped s), Except.ok ())

/-- One externally observable supervisor event: a start call, a stop call,
or the child exiting on its own. -/
inductive Op where
  | start (installed : Bool) (sp : SpawnOutcome) (waitResult : Except String Unit)
      (exitedDuringWait : Option Int) (nodeDir nodePath : String)
  | stop (exitedDuringGrace : Bool)
  | exited (code : Option Int) (signal : Option String)

def applyOp (s : SupState) : Op → SupState
  | Op.start i sp wr ex nd np => (startPC2 i sp wr ex nd np s).1
  | Op.stop ex => (stopPC2 ex s).1
  | Op.exited c sg => exitHandler c sg s

def runOps (s : SupState) (ops : List Op) : SupState :=
  ops.foldl applyOp s

/-- The mutable environment selection of part_001 (currentEnv line 341 and
the dir field of the custom entry of ENVIRONMENTS, which setEnvironment
overwrites). -/
structure EnvState where
  currentEnv : PC2Environment
  customDir : String
deriving Repr, DecidableEq

/-- ENVIRONMENTS[...].dir resolved for the current selection (part_001
lines 323-339 and getPC2Dir lines 358-360), posix path join. -/
def getPC2DirOf (home : String) (es : EnvState) : String :=
  match es.currentEnv with
  | PC2Environment.default => home ++ "/.pc2"
  | PC2Environment.dev => home ++ "/pc2.net"
  | PC2Environment.custom => es.customDir

/-- ENVIRONMENTS[...].nodeDir resolved for the current selection
(getPC2NodeDir, part_001 lines 362-364). -/
def getPC2NodeDirOf (home : String) (es : EnvState) : String :=
  getPC2DirOf home es ++ "/pc2-node"

/-- setEnvironment (part_001 lines 344-352): set currentEnv; when the
selector is custom and a non-empty dir was supplied (JavaScript truthiness
makes the empty string fall through), remember it as the custom root.
Nothing else happens: the supervisor state is not touched. -/
def setEnvironment (env : PC2Environment) (customDir : Option String)
    (es : EnvState) : EnvState :=
  match env, customDir with
  | PC2Environment.custom, some d =>
    if d = "" then { es with currentEnv := PC2Environment.custom }
    else { currentEnv := PC2Environment.custom, customDir := d }
  | _, _ => { es with currentEnv := env }

/-- The pc2:setEnvironment IPC handler (src/src/main/index.ts lines
173-182): call setEnvironment, then read the status (getStatus mutates
nothing) and push it to the window. The supervisor state is returned
unchanged alongside the new environment selection. -/
def ipcSetEnvironment (env : PC2Environment) (customPath : Option String)
    (es : EnvState) (s : SupState) : EnvState × SupState :=
  (setEnvironment env customPath es, s)

/-- The environment-selector change handler of the renderer
(src/src/renderer/app.js lines 153-166): stop PC2 first when the displayed
status is running, then call setEnvironment over IPC. -/
def rendererEnvSwitch (currentStatus : PC2Status) (env : PC2Environment)
    (exitedDuringGrace : Bool) (es : EnvState) (s : SupState) : EnvState × SupState :=
  let s := if currentStatus = PC2Status.running then (stopPC2 exitedDuringGrace s).1 else s
  ipcSetEnvironment env none es s

/-- String.prototype.includes of JavaScript: some index of s starts an
occurrence of sub. -/
def strContains (s sub : String) : Bool :=
  (List.range (s.length + 1)).any (fun i => List.isPrefixOf sub.data (s.data.drop i))

/-- uninstallPC2 (part_001 lines 777-800). The safety check throws before
any side effect when the resolved root contains neither ".pc2" nor
"pc2.net"; otherwise the status is read, a running service is stopped,
and the root is removed when it exists. -/
def uninstallPC2 (home : String) (es : EnvState) (fsExists : String → Bool)
    (fetchAt : Nat → FetchOutcome) (exitedDuringGrace : Bool)
    (s : SupState) : SupState × Except String Unit :=
  let pc2Dir := getPC2DirOf home es
  if !(strContains pc2Dir ".pc2") && !(strContains pc2Dir "pc2.net") then
    (s, Except.error "Safety check failed: refusing to delete this path")
  else
    let status := getStatusM fsExists (getPC2NodeDirOf home es) fetchAt s.pc2Process
    let s := if status = PC2Status.running then (stopPC2 exitedDuringGrace s).1 else s
    let s := emitLogS ("Uninstalling PC2 from " ++ pc2Dir ++ "...") s
    let s :=
      if fsExists pc2Dir then
        emitLogS "PC2 uninstalled successfully" { s with deletedDirs := s.deletedDirs ++ [pc2Dir] }
      else s
    (emitStatusS PC2Status.notInstalled s, Except.ok ())

/-- The fail-fast remediation message of installFromSource (part_001 line
678, posix branch). -/
def gitMissingMsg : String :=
  "Git is not installed. Please install git and try again."

/-- The four shell steps of installFromSource (part_001 lines 719-724):
clone, top-level npm install with scripts disabled, service npm install,
build — each with its progress label. -/
def installSteps (pc2Dir nodeDir npmCmd : String) : List (String × String) :=
  [ ("git clone https://github.com/Elacity/pc2.net \"" ++ pc2Dir ++ "\"",
      "Cloning repository..."),
    ("cd \"" ++ pc2Dir ++ "\" && " ++ npmCmd ++ " install --legacy-peer-deps --ignore-scripts",
      "Installing dependencies..."),
    ("cd \"" ++ nodeDir ++ "\" && " ++ npmCmd ++ " install --legacy-peer-deps",
      "Installing node dependencies..."),
    ("cd \"" ++ nodeDir ++ "\" && " ++ npmCmd ++ " run build",
      "Building PC2...") ]

/-- The for loop over the steps (part_001 lines 726-740): run each command
in order; a non-zero exit (exitErr cmd = some message) rejects and the
thrown error propagates out of installFromSource, so no later step runs.
The first component accumulates the commands that were executed. -/
def runInstallSteps (exitErr : String → Option String) :
    List (String × String) → List String → List String × Except String Unit
  | [], acc => (acc, Except.ok ())
  | (cmd, _msg) :: rest, acc =>
    match exitErr cmd with
    | some e => (acc ++ [cmd], Except.error e)
    | none => runInstallSteps exitErr rest (acc ++ [cmd])

/-- installFromSource (part_001 lines 669-744). Step 0 checks git and
throws the remediation message before anything else runs. The bundled
Node provisioning between the git check and the steps swallows its own
failures (lines 688-695) and does not affect the pipeline, so it is
represented only by the oracle-independent control flow. -/
def installFromSource (gitAvailable : Bool) (exitErr : String → Option String)
    (pc2Dir nodeDir npmCmd : String) : List String × Except String Unit :=
  if !gitAvailable then ([], Except.error gitMissingMsg)
  else runInstallSteps exitErr (installSteps pc2Dir nodeDir npmCmd) []

/-- A concrete state with a tracked, unkilled child (used in witnesses). -/
def stAliveTracked : SupState :=
  ⟨some ⟨1, false⟩, some PC2Status.running, [], 2, 1, [], 0, []⟩

/-- A concrete state whose tracked child has already been sent a kill
signal but whose handle was never cleared (reachable inside the stop
grace window). -/
def stKilledTracked : SupState :=
  ⟨some ⟨1, true⟩, some PC2Status.stopping, [], 2, 1, [1], 0, []⟩

/-- A concrete state tracking nothing. -/
def stIdle : SupState :=
  ⟨none, some PC2Status.stopped, [], 1, 0, [], 0, []⟩

-- ===================================================================
-- Theorems
-- ===================================================================

/-- Helper: jsSlice with a negative start strictly inside the list keeps
exactly the suffix counted from the end. -/
theorem jsSlice_neg_inside (buf : List String) (n : Nat) (h0 : 0 < n)
    (h1 : n < buf.length) :
    jsSlice buf (-(n : Int)) = buf.drop (buf.length - n) := by
  unfold jsSlice
  have hlt : -(n : Int) < 0 := by omega
  simp only [hlt, if_pos]
  congr 1
  omega

/--
C4: the log buffer never exceeds 500 after any append; appending to a
full buffer evicts exactly the oldest line; getLogs n for 0 < n < length
returns exactly the n most recent lines in append order.
-/
theorem emitLog_getLogs_spec (buf : List String) (line : String)
    (hcap : buf.length ≤ MAX_LOG_LINES) :
    (emitLogBuf buf line).length ≤ MAX_LOG_LINES ∧
    (buf.length = MAX_LOG_LINES → emitLogBuf buf line = buf.tail ++ [line]) ∧
    (∀ n : Nat, 0 < n → n < buf.length →
      jsSlice buf (-(n : Int)) = buf.drop (buf.length - n) ∧
      (jsSlice buf (-(n : Int))).length = n ∧
      getLogs buf (n : Int) = String.intercalate "\n" (buf.drop (buf.length - n))) := by
  have hl : (buf ++ [line]).length = buf.length + 1 := by simp
  have hM : MAX_LOG_LINES = 500 := rfl
  refine ⟨?_, ?_, ?_⟩
  · simp only [emitLogBuf]
    split
    · simp only [List.length_drop]
      omega
    · omega
  · intro hfull
    simp only [emitLogBuf]
    have hgt : (buf ++ [line]).length > MAX_LOG_LINES := by omega
    rw [if_pos hgt]
    have h1 : (1 : Nat) ≤ buf.length := by omega
    rw [List.drop_append_of_le_length h1, ← List.drop_one]
  · intro n hn0 hn1
    have hs := jsSlice_neg_inside buf n hn0 hn1
    refine ⟨hs, ?_, ?_⟩
    · rw [hs, List.length_drop]
      omega
    · unfold getLogs
      rw [hs]

/-- Witness for C4 at a concrete buffer. -/
theorem emitLog_getLogs_spec_witness :
    (emitLogBuf ["a", "b", "c"] "d").length ≤ MAX_LOG_LINES ∧
    getLogs ["a", "b", "c"] 2 = String.intercalate "\n" (["a", "b", "c"].drop 1) :=
  ⟨(emitLog_getLogs_spec ["a", "b", "c"] "d" (by decide)).1,
   ((emitLog_getLogs_spec ["a", "b", "c"] "d" (by decide)).2.2 2 (by decide) (by decide)).2.2⟩

/--
C10 counterexample: the claim that getLogs n returns the entire buffer
for every n less than or equal to the negated buffer length fails: on the
one-line buffer, getLogs (-1) returns the empty string, not the buffer.
-/
theorem getLogs_neg_counterexample :
    (-1 : Int) ≤ -((["a"] : List String).length : Int) ∧
    getLogs ["a"] (-1) = "" ∧
    String.intercalate "\n" ["a"] = "a" ∧
    ("" : String) ≠ "a" := by decide

/--
C10 amended: getLogs 0 returns the entire buffer joined with newlines
because slice(-0) = slice(0); the same holds for any n at least the
buffer length (slice clamps a negative start at 0); but for n at most the
negated buffer length, getLogs returns the empty string, because slice
clamps the non-negative start at the length and selects nothing.
-/
theorem getLogs_clamp_spec (buf : List String) :
    getLogs buf 0 = String.intercalate "\n" buf ∧
    (∀ n : Int, (buf.length : Int) ≤ n → getLogs buf n = String.intercalate "\n" buf) ∧
    (∀ n : Int, n ≤ -(buf.length : Int) → getLogs buf n = "") := by
  refine ⟨?_, ?_, ?_⟩
  · simp only [getLogs, jsSlice]
    norm_num
  · intro n hn
    simp only [getLogs, jsSlice]
    have hz : (if (-n) < 0 then max ((buf.length : Int) + -n) 0
        else min (-n) (buf.length : Int)).toNat = 0 := by
      split <;> omega
    rw [hz]
    simp
  · intro n hn
    simp only [getLogs, jsSlice]
    have hz : (if (-n) < 0 then max ((buf.length : Int) + -n) 0
        else min (-n) (buf.length : Int)).toNat = buf.length := by
      split <;> omega
    rw [hz]
    simp only [List.drop_length]
    rfl

/-- Witness for C10 amended at a concrete buffer. -/
theorem getLogs_clamp_spec_witness :
    getLogs ["x", "y"] 0 = String.intercalate "\n" ["x", "y"] ∧
    getLogs ["x", "y"] 7 = String.intercalate "\n" ["x", "y"] ∧
    getLogs ["x", "y"] (-2) = "" :=
  ⟨(getLogs_clamp_spec ["x", "y"]).1,
   (getLogs_clamp_spec ["x", "y"]).2.1 7 (by decide),
   (getLogs_clamp_spec ["x", "y"]).2.2 (-2) (by decide)⟩

/--
C3: getStatus implements exactly the claimed decision procedure. When the
install marker dist/index.js is absent the result is not installed and is
independent of the probe oracle and the tracked process (no health probe
and no process check can influence it); when installed, a 2xx response on
the single 2000 ms bounded probe gives running; any other probe outcome
falls back to starting when a tracked unkilled child exists and stopped
otherwise; the result depends only on the probe at timeout 2000; no other
status value is ever produced, and a throwing probe is swallowed.
-/
theorem getStatus_spec (fsExists : String → Bool) (nodeDir : String)
    (fetchAt : Nat → FetchOutcome) (proc : Option ProcHandle) :
    (fsExists (nodeDir ++ "/dist/index.js") = false →
      ∀ (g : Nat → FetchOutcome) (q : Option ProcHandle),
        getStatusM fsExists nodeDir g q = PC2Status.notInstalled) ∧
    (isInstalledB fsExists nodeDir = true →
      ∀ st, fetchAt 2000 = FetchOutcome.response st → respOk st = true →
        getStatusM fsExists nodeDir fetchAt proc = PC2Status.running) ∧
    (isInstalledB fsExists nodeDir = true → probeHealthy (fetchAt 2000) = false →
      getStatusM fsExists nodeDir fetchAt proc =
        (if aliveOpt proc then PC2Status.starting else PC2Status.stopped)) ∧
    (∀ g : Nat → FetchOutcome, fetchAt 2000 = g 2000 →
      getStatusM fsExists nodeDir fetchAt proc = getStatusM fsExists nodeDir g proc) ∧
    (getStatusM fsExists nodeDir fetchAt proc ≠ PC2Status.error ∧
     getStatusM fsExists nodeDir fetchAt proc ≠ PC2Status.stopping) := by
  refine ⟨?_, ?_, ?_, ?_, ?_⟩
  · intro hm g q
    have : isInstalledB fsExists nodeDir = false := by
      simp [isInstalledB, hm]
    simp [getStatusM, this]
  · intro hi st hp hok
    simp [getStatusM, hi, probeHealthy, hp, hok]
  · intro hi hp
    simp [getStatusM, hi, hp]
  · intro g hg
    simp [getStatusM, hg]
  · constructor <;>
      (simp only [getStatusM]
       split
       · simp
       · split
         · simp
         · split <;> simp)

/-- Witness for C3: an absent marker yields not installed with no probe. -/
theorem getStatus_spec_witness :
    getStatusM (fun _ => false) "/home/u/.pc2/pc2-node"
      (fun _ => FetchOutcome.response 200) (some { pid := 3, killed := false }) =
      PC2Status.notInstalled :=
  (getStatus_spec (fun _ => false) "/home/u/.pc2/pc2-node"
      (fun _ => FetchOutcome.netError) none).1 rfl
    (fun _ => FetchOutcome.response 200) (some { pid := 3, killed := false })

/--
C1: across every sequence of start, stop and exit events, the supervisor
tracks at most one child handle (pc2Process is a single nullable
variable); and a startPC2 call made while a process is tracked and not
killed returns immediately after appending the log notice, with the
tracked handle, the last emitted status and the spawn count unchanged —
no second child is spawned.
-/
theorem startPC2_single_tracked :
    (∀ (s : SupState) (ops : List Op), trackedCount (runOps s ops) ≤ 1) ∧
    (∀ (s : SupState) (sp : SpawnOutcome) (wr : Except String Unit)
        (ex : Option Int) (nd np : String), aliveTracked s = true →
      startPC2 true sp wr ex nd np s =
        ({ s with logBuffer := emitLogBuf s.logBuffer "PC2 is already running" },
          StartResult.earlyAlreadyRunning) ∧
      (startPC2 true sp wr ex nd np s).1.pc2Process = s.pc2Process ∧
      (startPC2 true sp wr ex nd np s).1.lastStatus = s.lastStatus ∧
      (startPC2 true sp wr ex nd np s).1.spawnCount = s.spawnCount) := by
  constructor
  · intro s ops
    unfold trackedCount
    split <;> omega
  · intro s sp wr ex nd np h
    have he : startPC2 true sp wr ex nd np s =
        ({ s with logBuffer := emitLogBuf s.logBuffer "PC2 is already running" },
          StartResult.earlyAlreadyRunning) := by
      simp [startPC2, h, emitLogS]
    refine ⟨he, ?_, ?_, ?_⟩ <;> rw [he]

/-- Witness for C1: the guard at a concrete tracked-alive state. -/
theorem startPC2_single_tracked_witness :
    aliveTracked stAliveTracked = true ∧
    (startPC2 true SpawnOutcome.spawned (Except.ok ()) none "/home/u/.pc2/pc2-node" "node"
      stAliveTracked).1.spawnCount = stAliveTracked.spawnCount :=
  ⟨by decide,
   (startPC2_single_tracked.2 stAliveTracked
      SpawnOutcome.spawned (Except.ok ()) none "/home/u/.pc2/pc2-node" "node"
      (by decide)).2.2.2⟩

/--
C7: the exit listener always clears the tracked handle and emits stopped,
whatever state the supervisor is in when the child exits; consequently any
operation sequence followed by a spontaneous child exit leaves nothing
tracked and the last emitted status stopped.
-/
theorem exitHandler_spec :
    (∀ (code : Option Int) (signal : Option String) (s : SupState),
      (exitHandler code signal s).pc2Process = none ∧
      (exitHandler code signal s).lastStatus = some PC2Status.stopped) ∧
    (∀ (s0 : SupState) (ops : List Op) (c : Option Int) (sg : Option String),
      (runOps s0 (ops ++ [Op.exited c sg])).pc2Process = none ∧
      (runOps s0 (ops ++ [Op.exited c sg])).lastStatus = some PC2Status.stopped) := by
  have hmain : ∀ (code : Option Int) (signal : Option String) (s : SupState),
      (exitHandler code signal s).pc2Process = none ∧
      (exitHandler code signal s).lastStatus = some PC2Status.stopped := by
    intro code signal s
    cases code <;> cases signal <;> simp [exitHandler, emitStatusS, emitLogS]
  refine ⟨hmain, ?_⟩
  intro s0 ops c sg
  unfold runOps
  rw [List.foldl_append]
  exact hmain c sg (List.foldl applyOp s0 ops)

/-- Helper: after stopPC2, no tracked handle is alive: the alive branch
clears the handle; the fallback branch is only reached when the handle is
absent or already killed. -/
theorem stop_not_alive (ex : Bool) (s : SupState) :
    aliveTracked (stopPC2 ex s).1 = false := by
  unfold stopPC2
  cases hp : s.pc2Process with
  | none => simp [aliveTracked, aliveOpt, emitLogS, emitStatusS, hp]
  | some p =>
    cases hk : p.killed with
    | true => simp [aliveTracked, aliveOpt, emitLogS, emitStatusS, hp, hk]
    | false =>
      cases ex <;>
        simp [aliveTracked, aliveOpt, emitLogS, emitStatusS, hp, hk, exitHandler]

/--
C2 counterexample: called on a state whose tracked child was already sent
a kill signal but whose handle was never cleared, stopPC2 takes the
port fallback branch and leaves the stale handle tracked, so the claim
that the tracked handle always ends cleared (null) is false.
-/
theorem stopPC2_counterexample :
    (stopPC2 false stKilledTracked).1.pc2Process = some ⟨1, true⟩ ∧
    (stopPC2 false stKilledTracked).1.pc2Process ≠ none := by decide

/--
C2 amended: stopPC2 can never reject, and from every starting state the
final emitted status is stopped; the tracked handle ends cleared whenever
it was alive (unkilled) and stays null when nothing was tracked (with or
without a process bound to the port, whose kill is fire-and-forget); but
when the tracked handle was already marked killed, the fallback branch
leaves it tracked unchanged rather than clearing it.
-/
theorem stopPC2_spec (ex : Bool) (s : SupState) :
    (stopPC2 ex s).2 = Except.ok () ∧
    (stopPC2 ex s).1.lastStatus = some PC2Status.stopped ∧
    (aliveTracked s = true → (stopPC2 ex s).1.pc2Process = none) ∧
    (s.pc2Process = none → (stopPC2 ex s).1.pc2Process = none) ∧
    (∀ p, s.pc2Process = some p → p.killed = true →
      (stopPC2 ex s).1.pc2Process = some p) := by
  unfold stopPC2
  cases hp : s.pc2Process with
  | none =>
    simp [emitLogS, emitStatusS, hp]
  | some p =>
    by_cases hk : p.killed = true
    · simp [emitLogS, emitStatusS, hp, hk, aliveTracked, aliveOpt]
    · have hk2 : p.killed = false := by
        cases hkk : p.killed
        · rfl
        · exact absurd hkk hk
      cases ex <;>
        simp [emitLogS, emitStatusS, hp, hk2, aliveTracked, aliveOpt, exitHandler]

/-- Witness for C2 amended at a concrete alive-tracked state. -/
theorem stopPC2_spec_witness :
    aliveTracked stAliveTracked = true ∧
    (stopPC2 true stAliveTracked).1.pc2Process = none :=
  ⟨by decide, (stopPC2_spec true stAliveTracked).2.2.1 (by decide)⟩

/--
C8 counterexample: an environment switch performed through setEnvironment
(the pc2:setEnvironment IPC handler) while a live process is tracked and
the status is running performs no stop at all: the previously tracked
process is still tracked and alive under the new environment, no kill
signal was recorded, and the handle is unchanged — so the claim that the
switch first forces a stop is false.
-/
theorem setEnvironment_counterexample :
    aliveTracked stAliveTracked = true ∧
    stAliveTracked.lastStatus = some PC2Status.running ∧
    (ipcSetEnvironment PC2Environment.dev none
      ⟨PC2Environment.default, ""⟩ stAliveTracked).2 = stAliveTracked ∧
    aliveTracked (ipcSetEnvironment PC2Environment.dev none
      ⟨PC2Environment.default, ""⟩ stAliveTracked).2 = true ∧
    (ipcSetEnvironment PC2Environment.dev none
      ⟨PC2Environment.default, ""⟩ stAliveTracked).2.killedPids = [] := by decide

/--
C8 amended: setEnvironment and the pc2:setEnvironment IPC handler never
stop the service — they leave the supervisor state (tracked handle
included) completely unchanged; the stop-before-switch is enforced one
layer up by the renderer environment-selector handler, which awaits
stop() first whenever the displayed status is running, so after a switch
driven through that UI flow no live tracked process remains.
-/
theorem envSwitch_spec (env : PC2Environment) (customPath : Option String)
    (ex : Bool) (es : EnvState) (s : SupState) :
    (ipcSetEnvironment env customPath es s).2 = s ∧
    aliveTracked (rendererEnvSwitch PC2Status.running env ex es s).2 = false := by
  constructor
  · rfl
  · unfold rendererEnvSwitch ipcSetEnvironment
    simp [stop_not_alive]

/--
C5: when the resolved install root contains neither ".pc2" nor "pc2.net",
uninstallPC2 throws the safety-check error before any side effect: the
supervisor state (tracked handle, last emitted status, log buffer, kill
ledger, deletion ledger) is returned exactly unchanged — no stop is
attempted and nothing is deleted.
-/
theorem uninstall_guard_spec (home : String) (es : EnvState)
    (fsExists : String → Bool) (fetchAt : Nat → FetchOutcome) (ex : Bool)
    (s : SupState)
    (h1 : strContains (getPC2DirOf home es) ".pc2" = false)
    (h2 : strContains (getPC2DirOf home es) "pc2.net" = false) :
    uninstallPC2 home es fsExists fetchAt ex s =
      (s, Except.error "Safety check failed: refusing to delete this path") := by
  unfold uninstallPC2
  simp [h1, h2]

/-- Witness for C5: a custom root at /tmp/unrelated trips the guard and
leaves everything untouched. -/
theorem uninstall_guard_spec_witness :
    uninstallPC2 "/home/u" ⟨PC2Environment.custom, "/tmp/unrelated"⟩
      (fun _ => true) (fun _ => FetchOutcome.response 200) false stAliveTracked =
      (stAliveTracked, Except.error "Safety check failed: refusing to delete this path") :=
  uninstall_guard_spec "/home/u" ⟨PC2Environment.custom, "/tmp/unrelated"⟩
    (fun _ => true) (fun _ => FetchOutcome.response 200) false stAliveTracked
    (by decide) (by decide)

/-- Helper: when no attempt ever probes healthy, the polling loop of
waitForServer terminates with the readiness-timeout error (each iteration
advances the elapsed time by the attempt duration plus the 1000 ms sleep). -/
theorem waitLoop_timeout (probe : Nat → FetchOutcome) (dur : Nat → Nat)
    (hp : ∀ i, probeHealthy (probe i) = false) :
    ∀ (n timeout elapsed i : Nat), timeout - elapsed ≤ n →
      waitLoop probe dur timeout elapsed i =
        Except.error "Timeout waiting for server to start" := by
  intro n
  induction n with
  | zero =>
    intro timeout elapsed i hle
    unfold waitLoop
    rw [if_neg (by omega)]
  | succ n ih =>
    intro timeout elapsed i hle
    unfold waitLoop
    by_cases hlt : elapsed < timeout
    · rw [if_pos hlt, hp i]
      simp only [Bool.false_eq_true, if_false]
      exact ih timeout (elapsed + dur i + 1000) (i + 1) (by omega)
    · rw [if_neg hlt]

set_option maxHeartbeats 1000000 in
/--
C6: when the spawned child never probes healthy within the 30000 ms
readiness window, waitForServer rejects with the readiness-timeout error,
and startPC2 then kills the still-tracked child (its pid is appended to
the kill ledger and the handle cleared), emits status error, and rejects
with that same timeout error, surfacing it to the caller.
-/
theorem start_timeout_spec (s : SupState) (probe : Nat → FetchOutcome)
    (dur : Nat → Nat) (nd np : String)
    (h1 : aliveTracked s = false)
    (h2 : ∀ i, probeHealthy (probe i) = false) :
    waitForServer probe dur = Except.error "Timeout waiting for server to start" ∧
    (startPC2 true SpawnOutcome.spawned (waitForServer probe dur) none nd np s).1.pc2Process
      = none ∧
    (startPC2 true SpawnOutcome.spawned (waitForServer probe dur) none nd np s).1.lastStatus
      = some PC2Status.error ∧
    (startPC2 true SpawnOutcome.spawned (waitForServer probe dur) none nd np s).1.killedPids
      = s.killedPids ++ [s.nextPid] ∧
    (startPC2 true SpawnOutcome.spawned (waitForServer probe dur) none nd np s).2
      = StartResult.rejected "Timeout waiting for server to start" := by
  have hw : waitForServer probe dur =
      Except.error "Timeout waiting for server to start" :=
    waitLoop_timeout probe dur h2 30000 30000 0 0 (by omega)
  refine ⟨hw, ?_⟩
  rw [hw]
  obtain ⟨pp, ls, lb, npid, sc, kp, pk, dd⟩ := s
  cases pp with
  | none =>
    simp [startPC2, aliveTracked, aliveOpt, emitLogS, emitStatusS]
  | some p =>
    simp [aliveTracked, aliveOpt] at h1
    simp [startPC2, aliveTracked, aliveOpt, h1, emitLogS, emitStatusS]

/-- Witness for C6 with a probe that always throws. -/
theorem start_timeout_spec_witness :
    waitForServer (fun _ => FetchOutcome.netError) (fun _ => 2000) =
      Except.error "Timeout waiting for server to start" ∧
    (startPC2 true SpawnOutcome.spawned
      (waitForServer (fun _ => FetchOutcome.netError) (fun _ => 2000)) none
      "/home/u/.pc2/pc2-node" "node" stIdle).1.pc2Process = none :=
  ⟨(start_timeout_spec stIdle (fun _ => FetchOutcome.netError) (fun _ => 2000)
      "/home/u/.pc2/pc2-node" "node" (by decide) (fun _ => rfl)).1,
   (start_timeout_spec stIdle (fun _ => FetchOutcome.netError) (fun _ => 2000)
      "/home/u/.pc2/pc2-node" "node" (by decide) (fun _ => rfl)).2.1⟩

/--
C9: install-from-source fails fast with the git remediation message when
git is absent, running none of the steps; with git present it runs
exactly the four commands (clone, top-level install with scripts
disabled, service install, build) strictly in list order when every step
exits zero; and the first non-zero step aborts the pipeline — exactly the
commands up to and including the failed one ran, and its error is the one
propagated.
-/
theorem installFromSource_spec (exitErr : String → Option String)
    (p n m : String) :
    (installFromSource false exitErr p n m = ([], Except.error gitMissingMsg)) ∧
    ((installSteps p n m).length = 4) ∧
    ((∀ c ∈ (installSteps p n m).map Prod.fst, exitErr c = none) →
      installFromSource true exitErr p n m =
        ((installSteps p n m).map Prod.fst, Except.ok ())) ∧
    (∀ k e, k < (installSteps p n m).length →
      (∀ j, j < k → exitErr (((installSteps p n m).map Prod.fst).getD j "") = none) →
      exitErr (((installSteps p n m).map Prod.fst).getD k "") = some e →
      installFromSource true exitErr p n m =
        (((installSteps p n m).map Prod.fst).take (k + 1), Except.error e)) := by
  refine ⟨?_, ?_, ?_, ?_⟩
  · simp [installFromSource]
  · simp [installSteps]
  · intro hall
    simp only [installSteps, List.map_cons, List.map_nil, List.mem_cons,
      List.not_mem_nil, or_false, forall_eq_or_imp, forall_eq] at hall
    obtain ⟨h0, h1, h2, h3⟩ := hall
    simp [installFromSource, installSteps, runInstallSteps, h0, h1, h2, h3]
  · intro k e hk hbefore hfail
    simp only [installSteps, List.length_cons, List.length_nil] at hk
    interval_cases k
    · simp [installSteps, List.getD] at hfail
      simp [installFromSource, installSteps, runInstallSteps, hfail]
    · have h0 := hbefore 0 (by omega)
      simp [installSteps, List.getD] at h0 hfail
      simp [installFromSource, installSteps, runInstallSteps, h0, hfail]
    · have h0 := hbefore 0 (by omega)
      have h1 := hbefore 1 (by omega)
      simp [installSteps, List.getD] at h0 h1 hfail
      simp [installFromSource, installSteps, runInstallSteps, h0, h1, hfail]
    · have h0 := hbefore 0 (by omega)
      have h1 := hbefore 1 (by omega)
      have h2 := hbefore 2 (by omega)
      simp [installSteps, List.getD] at h0 h1 h2 hfail
      simp [installFromSource, installSteps, runInstallSteps, h0, h1, h2, hfail]

/-- Witness for C9: an all-success run executes the four steps in order. -/
theorem installFromSource_spec_witness :
    installFromSource true (fun _ => none) "/home/u/.pc2" "/home/u/.pc2/pc2-node" "npm" =
      ((installSteps "/home/u/.pc2" "/home/u/.pc2/pc2-node" "npm").map Prod.fst,
        Except.ok ()) :=
  (installFromSource_spec (fun _ => none) "/home/u/.pc2" "/home/u/.pc2/pc2-node"
    "npm").2.2.1 (by intro c _; rfl)

end Launcher
